import Mathlib

/-!
Verification development for a laboratory heater-control system consisting of
two Python modules:

* `device_models.py` — a serial "gaussmeter" channel (`GM3`): a framed,
  acknowledgment-based binary query protocol with an unbounded retry loop and a
  module-level failure counter, plus a fixed-point decoder
  (`get_instantenous_data`) turning the raw byte reply into signed scaled
  readings.
* `pid_controller_server.py` — a line-oriented command dispatcher
  (`process_command`) and a single-threaded scheduler loop (`main`) that
  interleaves a periodic control step with non-blocking command handling.

The definitions below are a shallow embedding of that code.  Byte-stream I/O is
modelled by an explicit list of bytes the device will deliver (reads take a
prefix), Python floats are modelled as exact rationals, and Python exceptions
are modelled as explicit error values.  Components that live outside the two
modules (the `HeaterAssembly` from `device_type`, Python builtins such as
`float()`) are modelled from the spec where noted.
-/

/-! ## Fixed-point sample decoder (device_models.py, GM3.get_instantenous_data)

The source converts the reply bytes to a hex string (two hex characters per
byte) and decodes by slicing that string.  `bytesToHex` models `bytes.hex()`
as the list of hex-digit values, `hexToNat` models `int(s, 16)` on a slice,
and `pySlice l a b` models the Python slice `l[a:b]` (for `a ≤ b ≤ len l`). -/

def bytesToHex : List Nat → List Nat
  | [] => []
  | b :: l => b / 16 :: b % 16 :: bytesToHex l

def hexToNatAux : Nat → List Nat → Nat
  | a, [] => a
  | a, d :: l => hexToNatAux (16 * a + d) l

def hexToNat (l : List Nat) : Nat := hexToNatAux 0 l

def pySlice (l : List Nat) (a b : Nat) : List Nat := (l.take b).drop a

/-- The body of the decoding loop of `GM3.get_instantenous_data`
(device_models.py lines 168-179) for the section starting at hex-string
position `section_i`: `byte_2` is `query_string[section_i+2 : section_i+4]`,
`bytes_3456` is `query_string[section_i+4 : section_i+12]`, the sign is
negative iff `byte_2 & 0x08` is non-zero, and the magnitude is
`10 ** (-(byte_2 & 0x07))`. -/
def GM3.sectionVal (query_string : List Nat) (section_i : Nat) : ℚ :=
  let byte_2 := hexToNat (pySlice query_string (section_i + 2) (section_i + 4))
  let bytes_3456 := hexToNat (pySlice query_string (section_i + 4) (section_i + 12))
  let sign : ℚ := if byte_2 &&& 8 ≠ 0 then -1 else 1
  let magnitude : ℚ := (10 : ℚ) ^ (-((byte_2 &&& 7 : Nat) : ℤ))
  sign * (bytes_3456 : ℚ) * magnitude

/-- Decoding part of `GM3.get_instantenous_data` (device_models.py lines
154-181), as a function of the bytes returned by `query('STREAM_DATA')`:
`number_of_measurables = int(len(query_string) / 2 / 6)` sections are decoded,
each from 12 hex characters. -/
def GM3.get_instantenous_data (query_bytes : List Nat) : List ℚ :=
  let query_string := bytesToHex query_bytes
  let number_of_measurables := query_string.length / 2 / 6
  (List.range number_of_measurables).map
    (fun measurable_i => GM3.sectionVal query_string (measurable_i * 12))

/-! Spec-side description of the decoder (shallow embedding of the words of
the spec, section 4.2): the buffer is partitioned into 6-byte sections; for a
section, byte 2 (1-indexed) carries the sign bit (mask 0x08) and the decimal
exponent (mask 0x07), and bytes 3-6 are the big-endian decimal digits. -/

def sectionsOf (buf : List Nat) : List (List Nat) :=
  (List.range (buf.length / 6)).map (fun m => (buf.drop (6 * m)).take 6)

def sectionSign (s : List Nat) : ℤ := if s.getD 1 0 &&& 8 ≠ 0 then -1 else 1

def sectionExponent (s : List Nat) : Nat := s.getD 1 0 &&& 7

def sectionDigits (s : List Nat) : Nat :=
  s.getD 2 0 * 16777216 + s.getD 3 0 * 65536 + s.getD 4 0 * 256 + s.getD 5 0

def readingValue (sign : ℤ) (digits : Nat) (exponent : Nat) : ℚ :=
  (sign : ℚ) * (digits : ℚ) * (10 : ℚ) ^ (-(exponent : ℤ))

/-- Re-encoding of a reading, following the spec's words for claim C8: the
sign bit goes into bit 4 (mask 0x08) of byte 2, the exponent into its low
three bits, and the digits into bytes 3-6 big-endian; byte 1 carries no
information and is emitted as 0. -/
def encodeSection (sign : ℤ) (digits : Nat) (exponent : Nat) : List Nat :=
  [0, (if sign = -1 then 8 else 0) ||| exponent,
   digits / 16777216 % 256, digits / 65536 % 256, digits / 256 % 256, digits % 256]

/-- Sign recovered by the decoder from a single 6-byte section. -/
def GM3.section_sign (s : List Nat) : ℤ :=
  if hexToNat (pySlice (bytesToHex s) 2 4) &&& 8 ≠ 0 then -1 else 1

/-- Exponent recovered by the decoder from a single 6-byte section. -/
def GM3.section_exponent (s : List Nat) : Nat :=
  hexToNat (pySlice (bytesToHex s) 2 4) &&& 7

/-- Digits (`bytes_3456`) recovered by the decoder from a single 6-byte section. -/
def GM3.section_digits (s : List Nat) : Nat :=
  hexToNat (pySlice (bytesToHex s) 4 12)

/-! ## Framed device channel (device_models.py, GM3.query)

The serial transport is modelled by the list of bytes the device will deliver,
in order; `read(n)` takes the first `n` of them (possibly fewer when the
stream is exhausted, modelling a timeout).  The module-level global
`error_count` (device_models.py line 22) is threaded through the state, and
the frames written by `self.write` are recorded so the retransmission
behaviour is observable.  A `while` loop that would spin forever on an
exhausted transport is modelled by returning `none`. -/

structure GMState where
  stream : List Nat
  writes : List (List Nat)
  error_count : Nat
deriving DecidableEq

/-- First loop of `GM3.query` (device_models.py lines 100-106): write the
six-byte request frame, read `read_length` data bytes and one acknowledgment
byte; retry until the acknowledgment equals `0x08`, incrementing
`error_count` on every failed attempt. -/
def GM3.ackLoop (frame : List Nat) (read_length : Nat) (st : GMState) :
    Option (List Nat × GMState) :=
  if hs : st.stream = [] then none
  else
    let r := st.stream.take read_length
    let s1 := st.stream.drop read_length
    let ack := s1.take 1
    let s2 := s1.drop 1
    if ack = [8] then some (r, ⟨s2, st.writes ++ [frame], st.error_count⟩)
    else GM3.ackLoop frame read_length ⟨s2, st.writes ++ [frame], st.error_count + 1⟩
termination_by st.stream.length
decreasing_by
  simp only [List.length_drop]
  have := List.length_pos.mpr hs
  omega

/-- Second loop of `GM3.query` (device_models.py lines 111-114): while the
acknowledgment is not `0x07`, write the continuation frame `0x08` repeated six
times, read `read_length` more data bytes (appended to `r`) and a fresh
acknowledgment byte. -/
def GM3.contLoop (read_length : Nat) (r : List Nat) (ack : List Nat) (st : GMState) :
    Option (List Nat × GMState) :=
  if ack = [7] then some (r, st)
  else if hs : st.stream = [] then none
  else
    let d := st.stream.take read_length
    let s1 := st.stream.drop read_length
    let ack2 := s1.take 1
    let s2 := s1.drop 1
    GM3.contLoop read_length (r ++ d) ack2 ⟨s2, st.writes ++ [List.replicate 6 8], st.error_count⟩
termination_by st.stream.length
decreasing_by
  simp only [List.length_drop]
  have := List.length_pos.mpr hs
  omega

/-- `qry_dict` of `GM3.query` (device_models.py lines 67-80). -/
def qry_dict : List (String × String) :=
  [(("ID_METER_PROP"), ("01")), (("ID_METER_SETT"), ("02")),
   (("STREAM_DATA"), ("03")), (("RESET_TIME"), ("04")),
   (("01"), ("01")), (("02"), ("02")), (("03"), ("03")), (("04"), ("04")),
   (("0x01"), ("01")), (("0x02"), ("02")), (("0x03"), ("03")), (("0x04"), ("04"))]

/-- `read_length_dict` of `GM3.query` (device_models.py lines 91-96). -/
def read_length_dict : List (String × Nat) :=
  [(("01"), 20), (("02"), 20), (("03"), 30), (("04"), 31)]

/-- Byte value of a two-hex-character opcode string, as produced by
`bytes.fromhex(qry)`; only the four opcodes of `read_length_dict` occur. -/
def opcodeByte (q : String) : Nat :=
  if q = ("01") then 1 else if q = ("02") then 2
  else if q = ("03") then 3 else if q = ("04") then 4 else 0

inductive QueryOutcome where
  | invalid : QueryOutcome
  | diverge : QueryOutcome
  | ok : List Nat → GMState → QueryOutcome
deriving DecidableEq

/-- `GM3.query` (device_models.py lines 48-116).  `invalid` models the
`ValueError` raised for an unknown command (and the unreachable `KeyError`
for a missing read length); `diverge` models the unbounded retry loop
spinning forever on an exhausted transport; `ok r st` returns the reply
bytes together with the transport state after the exchange. -/
def GM3.query (command : String) (st : GMState) : QueryOutcome :=
  match List.lookup command qry_dict with
  | none => .invalid
  | some qry =>
    match List.lookup qry read_length_dict with
    | none => .invalid
    | some read_length =>
      match GM3.ackLoop (List.replicate 6 (opcodeByte qry)) read_length st with
      | none => .diverge
      | some (r, st1) =>
        if qry = ("03") ∨ qry = ("04") then .ok r st1
        else
          match GM3.contLoop read_length r [8] st1 with
          | none => .diverge
          | some (r2, st2) => .ok r2 st2

/-- Bytes a transport delivers for a list of (data, acknowledgment) replies. -/
def flatResp (rs : List (List Nat × Nat)) : List Nat :=
  rs.foldr (fun p acc => p.1 ++ p.2 :: acc) []

/-- Concatenation of the data parts of a list of replies. -/
def concatData (rs : List (List Nat × Nat)) : List Nat :=
  rs.foldr (fun p acc => p.1 ++ acc) []

/-- Run a sequence of queries, threading the module-level `error_count`
(and the rest of the transport state) through; a query that raises or
diverges leaves the state unchanged. -/
def runQueries (cmds : List String) (st : GMState) : GMState :=
  cmds.foldl
    (fun s c =>
      match GM3.query c s with
      | QueryOutcome.ok _ s2 => s2
      | _ => s) st

/-! ## Command dispatcher (pid_controller_server.py, process_command)

Commands are modelled as lists of characters.  `pySplit` models Python's
`str.split()` (split on runs of whitespace, dropping empty tokens).  The
`HeaterAssembly` object lives in the `device_type` module, which is not part
of the sources; following the spec (section 3), it is modelled as a record of
plain control-state fields, with its device-touching properties modelled as
reads/writes of those fields. -/

inductive PyExc where
  | valueError : PyExc
  | indexError : PyExc
  | unboundLocal : PyExc
deriving DecidableEq

inductive PyVal where
  | vs : List Char → PyVal
  | vq : ℚ → PyVal
  | vi : Int → PyVal
deriving DecidableEq

inductive CmdResult where
  | ret : Option PyVal → CmdResult
  | exc : PyExc → CmdResult
deriving DecidableEq

/-- Modelled from the spec: the shared control state held by the
`HeaterAssembly` (from the missing `device_type` module), spec section 3.
Fields are exactly the assembly attributes `process_command` and the
scheduler loop read or write; device-backed properties are modelled as plain
fields, Python floats as rationals, and the integer-typed flags as `Int`
(Python truthiness: non-zero is true).  `configure_power_supply` is modelled
as setting the `power_supply_configured` flag. -/
structure Asm where
  power_supply : List Char
  supply_set_voltage : ℚ
  supply_set_current : ℚ
  supply_voltage_limit : ℚ
  supply_current_limit : ℚ
  MAX_voltage_limit : ℚ
  MAX_current_limit : ℚ
  supply_channel_state : Int
  supply_channel : Int
  supply_actual_voltage : ℚ
  supply_actual_current : ℚ
  daq : List Char
  temp : ℚ
  daq_channel : Int
  thermocouple_type : List Char
  temp_units : List Char
  pid_function : List Char
  pid_kp : ℚ
  pid_ki : ℚ
  pid_kd : ℚ
  set_temperature : ℚ
  sample_time : ℚ
  pid_regulating : Int
  power_supply_configured : Bool
deriving DecidableEq

/-- Whitespace characters for Python's `str.split()`. -/
def pyIsSpace (c : Char) : Bool :=
  c = ' ' || c = '\t' || c = '\n' || c = '\r' || c = '\x0b' || c = '\x0c'

def pySplitAux : List Char → List Char → List (List Char)
  | [], acc => if acc = [] then [] else [acc.reverse]
  | c :: cs, acc =>
    if pyIsSpace c then
      if acc = [] then pySplitAux cs []
      else acc.reverse :: pySplitAux cs []
    else pySplitAux cs (c :: acc)

/-- Python's `cmd.split()`: split on runs of whitespace, no empty tokens. -/
def pySplit (s : List Char) : List (List Char) := pySplitAux s []

def digitVal (c : Char) : Option Nat :=
  if '0' ≤ c ∧ c ≤ '9' then some (c.toNat - 48) else none

def parseNatDigits : List Char → Option Nat → Option Nat
  | [], acc => acc
  | c :: cs, acc =>
    match digitVal c, acc with
    | some d, some a => parseNatDigits cs (some (10 * a + d))
    | some d, none => parseNatDigits cs (some d)
    | none, _ => none

/-- Modelled from the spec: Python's `int(s)` (a builtin, outside the
sources), restricted to an optional sign followed by decimal digits; `none`
models the `ValueError` on parse failure. -/
def parseInt (cs : List Char) : Option Int :=
  match cs with
  | '-' :: rest => (parseNatDigits rest none).map (fun n => -(n : Int))
  | '+' :: rest => (parseNatDigits rest none).map (fun n => (n : Int))
  | _ => (parseNatDigits cs none).map (fun n => (n : Int))

/-- Split at the first dot, for `parseFloat`. -/
def splitDot : List Char → List Char × Option (List Char)
  | [] => ([], none)
  | c :: cs =>
    if c = '.' then ([], some cs)
    else
      let p := splitDot cs
      (c :: p.1, p.2)

def parseFloatUnsigned (cs : List Char) : Option ℚ :=
  let p := splitDot cs
  match p.2 with
  | none => (parseNatDigits p.1 none).map (fun n => (n : ℚ))
  | some fs =>
    match parseNatDigits p.1 none, parseNatDigits fs none with
    | some a, some b => some ((a : ℚ) + (b : ℚ) / (10 : ℚ) ^ fs.length)
    | some a, none => if fs = [] then some ((a : ℚ)) else none
    | none, some b => if p.1 = [] then some ((b : ℚ) / (10 : ℚ) ^ fs.length) else none
    | none, none => none

/-- Modelled from the spec: Python's `float(s)` (a builtin, outside the
sources), restricted to plain decimal literals with an optional sign and
fraction part; `none` models the `ValueError` on parse failure. -/
def parseFloat (cs : List Char) : Option ℚ :=
  match cs with
  | '-' :: rest => (parseFloatUnsigned rest).map (fun q => -q)
  | '+' :: rest => parseFloatUnsigned rest
  | _ => parseFloatUnsigned cs

/-- Dispatch chain of `process_command` (pid_controller_server.py lines
50-166), given the first token `f` and the optional second token `s` (Python
leaves the local `s` unbound when the line does not split into exactly two
tokens; reading it then raises `UnboundLocalError`, modelled by
`PyExc.unboundLocal`). -/
def dispatchCommand (cmd : List Char) (f : List Char) (s : Option (List Char)) (asm : Asm) :
    CmdResult × Asm :=
  if f = ("PS:IDN").data then (.ret (some (.vs asm.power_supply)), asm)
  else if f = ("PS:RSET").data then
    (.ret none,
      { asm with supply_set_voltage := 0, supply_set_current := 0,
                 supply_voltage_limit := asm.MAX_voltage_limit,
                 supply_current_limit := asm.MAX_current_limit,
                 supply_channel_state := 1 })
  else if f = ("PS:STOP").data then
    (.ret none,
      { asm with supply_channel_state := 0, supply_set_voltage := 0,
                 supply_set_current := 0 })
  else if f = ("PS:REDY").data then
    (.ret none, { asm with power_supply_configured := true })
  else if f = ("PS:VOLT").data then
    match s with
    | none => (.exc .unboundLocal, asm)
    | some sv =>
      if sv = ("?").data then (.ret (some (.vq asm.supply_actual_voltage)), asm)
      else
        match parseFloat sv with
        | none => (.exc .valueError, asm)
        | some v => (.ret none, { asm with supply_set_voltage := v })
  else if f = ("PS:VSET").data then
    match s with
    | none => (.exc .unboundLocal, asm)
    | some sv =>
      if sv = ("?").data then (.ret (some (.vq asm.supply_set_voltage)), asm)
      else
        match parseFloat sv with
        | none => (.exc .valueError, asm)
        | some v => (.ret none, { asm with supply_set_voltage := v })
  else if f = ("PS:AMPS").data then
    match s with
    | none => (.exc .unboundLocal, asm)
    | some sv =>
      if sv = ("?").data then (.ret (some (.vq asm.supply_actual_current)), asm)
      else
        match parseFloat sv with
        | none => (.exc .valueError, asm)
        | some v => (.ret none, { asm with supply_set_current := v })
  else if f = ("PS:ASET").data then
    match s with
    | none => (.exc .unboundLocal, asm)
    | some sv =>
      if sv = ("?").data then (.ret (some (.vq asm.supply_set_current)), asm)
      else
        match parseFloat sv with
        | none => (.exc .valueError, asm)
        | some v => (.ret none, { asm with supply_set_current := v })
  else if f = ("PS:VLIM").data then
    match s with
    | none => (.exc .unboundLocal, asm)
    | some sv =>
      if sv = ("?").data then (.ret (some (.vq asm.supply_voltage_limit)), asm)
      else
        match parseFloat sv with
        | none => (.exc .valueError, asm)
        | some v => (.ret none, { asm with supply_voltage_limit := v })
  else if f = ("PS:ALIM").data then
    match s with
    | none => (.exc .unboundLocal, asm)
    | some sv =>
      if sv = ("?").data then (.ret (some (.vq asm.supply_current_limit)), asm)
      else
        match parseFloat sv with
        | none => (.exc .valueError, asm)
        | some v => (.ret none, { asm with supply_current_limit := v })
  else if f = ("PS:CHIO").data then
    match s with
    | none => (.exc .unboundLocal, asm)
    | some sv =>
      if sv = ("?").data then (.ret (some (.vi asm.supply_channel_state)), asm)
      else
        match parseInt sv with
        | none => (.exc .valueError, asm)
        | some v => (.ret none, { asm with supply_channel_state := v })
  else if f = ("PS:CHAN").data then
    match s with
    | none => (.exc .unboundLocal, asm)
    | some sv =>
      if sv = ("?").data then (.ret (some (.vi asm.supply_channel)), asm)
      else
        match parseInt sv with
        | none => (.exc .valueError, asm)
        | some v => (.ret none, { asm with supply_channel := v })
  else if f = ("DQ:IDN").data then (.ret (some (.vs asm.daq)), asm)
  else if f = ("DQ:TEMP").data then (.ret (some (.vq asm.temp)), asm)
  else if f = ("DQ:CHAN").data then
    match s with
    | none => (.exc .unboundLocal, asm)
    | some sv =>
      if sv = ("?").data then (.ret (some (.vi asm.daq_channel)), asm)
      else
        match parseInt sv with
        | none => (.exc .valueError, asm)
        | some v => (.ret none, { asm with daq_channel := v })
  else if f = ("DQ:TCTY").data then
    match s with
    | none => (.exc .unboundLocal, asm)
    | some sv =>
      if sv = ("?").data then (.ret (some (.vs asm.thermocouple_type)), asm)
      else (.ret none, { asm with thermocouple_type := sv })
  else if f = ("DQ:UNIT").data then
    match s with
    | none => (.exc .unboundLocal, asm)
    | some sv =>
      if sv = ("?").data then (.ret (some (.vs asm.temp_units)), asm)
      else (.ret none, { asm with temp_units := sv })
  else if f = ("PD:IDN").data then (.ret (some (.vs asm.pid_function)), asm)
  else if f = ("PD:KPRO").data then
    match s with
    | none => (.exc .unboundLocal, asm)
    | some sv =>
      if sv = ("?").data then (.ret (some (.vq asm.pid_kp)), asm)
      else
        match parseFloat sv with
        | none => (.exc .valueError, asm)
        | some v => (.ret none, { asm with pid_kp := v })
  else if f = ("PD:KINT").data then
    match s with
    | none => (.exc .unboundLocal, asm)
    | some sv =>
      if sv = ("?").data then (.ret (some (.vq asm.pid_ki)), asm)
      else
        match parseFloat sv with
        | none => (.exc .valueError, asm)
        | some v => (.ret none, { asm with pid_ki := v })
  else if f = ("PD:KDER").data then
    match s with
    | none => (.exc .unboundLocal, asm)
    | some sv =>
      if sv = ("?").data then (.ret (some (.vq asm.pid_kd)), asm)
      else
        match parseFloat sv with
        | none => (.exc .valueError, asm)
        | some v => (.ret none, { asm with pid_kd := v })
  else if f = ("PD:SETP").data then
    match s with
    | none => (.exc .unboundLocal, asm)
    | some sv =>
      if sv = ("?").data then (.ret (some (.vq asm.set_temperature)), asm)
      else
        match parseFloat sv with
        | none => (.exc .valueError, asm)
        | some v => (.ret none, { asm with set_temperature := v })
  else if f = ("PD:SAMP").data then
    match s with
    | none => (.exc .unboundLocal, asm)
    | some sv =>
      if sv = ("?").data then (.ret (some (.vq asm.sample_time)), asm)
      else
        match parseFloat sv with
        | none => (.exc .valueError, asm)
        | some v => (.ret none, { asm with sample_time := v })
  else if f = ("PD:REGT").data then
    match s with
    | none => (.exc .unboundLocal, asm)
    | some sv =>
      if sv = ("?").data then (.ret (some (.vi asm.pid_regulating)), asm)
      else
        match parseInt sv with
        | none => (.exc .valueError, asm)
        | some v =>
          if v = 1 then
            (.ret none, { asm with power_supply_configured := true, pid_regulating := v })
          else (.ret none, { asm with pid_regulating := v })
  else (.ret (some (.vs (("ERROR: bad command").data ++ cmd))), asm)

/-- `process_command` (pid_controller_server.py lines 33-166): reject lines
not ending in a carriage return (`ValueError`; `IndexError` on an empty
line), split the line into tokens (the second token variable stays unbound
unless there are exactly two tokens), and dispatch. -/
def process_command (cmd : List Char) (asm : Asm) : CmdResult × Asm :=
  if h : cmd = [] then (.exc .indexError, asm)
  else if cmd.getLast h ≠ '\r' then (.exc .valueError, asm)
  else
    match pySplit cmd with
    | [] => (.exc .indexError, asm)
    | fTok :: restToks =>
      let s : Option (List Char) :=
        match restToks with
        | [sTok] => some sTok
        | _ => none
      dispatchCommand cmd fTok s asm

/-- Tokens of the dispatch table naming read/write fields that require an
argument (their handlers read the second token `s` before anything else). -/
def argFields : List (List Char) :=
  [("PS:VOLT").data, ("PS:VSET").data, ("PS:AMPS").data, ("PS:ASET").data,
   ("PS:VLIM").data, ("PS:ALIM").data, ("PS:CHIO").data, ("PS:CHAN").data,
   ("DQ:CHAN").data, ("DQ:TCTY").data, ("DQ:UNIT").data,
   ("PD:KPRO").data, ("PD:KINT").data, ("PD:KDER").data, ("PD:SETP").data,
   ("PD:SAMP").data, ("PD:REGT").data]

/-! ## Scheduler loop (pid_controller_server.py, main)

One iteration of the `while True:` loop (lines 201-220): the control phase
(regulate or force the supply voltage to zero) followed by the command phase
(non-blocking receive and dispatch).  `upd` abstracts
`assembly.update_supply()` together with the `assembly.temp` read — device
calls whose implementation lives in the missing `device_type` module — and
may fail (`DevErr`); nothing in `main` catches such a failure, or any
exception from `process_command` other than `BlockingIOError`. -/

inductive DevErr where
  | deviceFailure : DevErr
deriving DecidableEq

structure LoopState where
  asm : Asm
  t0 : ℚ
  sent : List PyVal
deriving DecidableEq

inductive LoopOutcome where
  | next : LoopState → LoopOutcome
  | disconnected : LoopState → LoopOutcome
  | fatal : PyExc ⊕ DevErr → LoopState → LoopOutcome
deriving DecidableEq

/-- Control phase of one loop iteration (pid_controller_server.py lines
202-208): when `pid_regulating` is truthy and the sample period has elapsed,
run the control step (`update_supply` and the temperature read, abstracted by
`upd`); otherwise, when not regulating, force the supply set voltage to 0. -/
def control_phase (upd : Asm → Except DevErr Asm) (now : ℚ) (st : LoopState) :
    Except DevErr LoopState :=
  if st.asm.pid_regulating ≠ 0 then
    if now - st.t0 ≥ st.asm.sample_time then
      match upd st.asm with
      | .error e => .error e
      | .ok a => .ok { st with asm := a, t0 := now }
    else .ok st
  else .ok { st with asm := { st.asm with supply_set_voltage := 0 } }

/-- Command phase of one loop iteration (pid_controller_server.py lines
209-220): `none` models a `BlockingIOError` from the non-blocking receive
(caught, pass); an empty payload models the remote disconnect (break); an
exception escaping `process_command` is not caught and is fatal to the
session. -/
def command_phase (inbound : Option (List Char)) (st : LoopState) : LoopOutcome :=
  match inbound with
  | none => .next st
  | some [] => .disconnected st
  | some data =>
    match process_command data st.asm with
    | (.ret none, a) => .next { st with asm := a }
    | (.ret (some v), a) => .next { st with asm := a, sent := st.sent ++ [v] }
    | (.exc e, a) => .fatal (Sum.inl e) { st with asm := a }

/-- One iteration of the scheduler loop of `main` (pid_controller_server.py
lines 201-220): control phase, then command phase; a `DevErr` escaping the
control phase is not caught and is fatal to the session. -/
def loop_iter (upd : Asm → Except DevErr Asm) (inbound : Option (List Char)) (now : ℚ)
    (st : LoopState) : LoopOutcome :=
  match control_phase upd now st with
  | .error e => .fatal (Sum.inr e) st
  | .ok st1 => command_phase inbound st1

/-- A concrete assembly state used for witnesses and counterexamples. -/
def asm0 : Asm :=
  { power_supply := ("ps").data, supply_set_voltage := 5, supply_set_current := 1,
    supply_voltage_limit := 30, supply_current_limit := 2, MAX_voltage_limit := 32,
    MAX_current_limit := 3, supply_channel_state := 1, supply_channel := 1,
    supply_actual_voltage := 5, supply_actual_current := 1, daq := ("daq").data,
    temp := 20, daq_channel := 0, thermocouple_type := ("K").data,
    temp_units := ("celsius").data, pid_function := ("pid").data, pid_kp := 1,
    pid_ki := 0, pid_kd := 0, set_temperature := 50, sample_time := 2,
    pid_regulating := 0, power_supply_configured := false }

/-- A concrete assembly state with regulation enabled. -/
def asm1 : Asm := { asm0 with pid_regulating := 1, sample_time := 0 }

/-- A control step that always succeeds without changing the state. -/
def updOk : Asm → Except DevErr Asm := fun a => .ok a

/-- A control step whose device call fails. -/
def updFail : Asm → Except DevErr Asm := fun _ => .error DevErr.deviceFailure

def LoopOutcome.isFatal : LoopOutcome → Bool
  | .fatal _ _ => true
  | _ => false

/-! ### Decoder lemmas -/

lemma bytesToHex_length (l : List Nat) : (bytesToHex l).length = 2 * l.length := by
  induction l with
  | nil => rfl
  | cons b l ih => simp [bytesToHex, ih]; omega

lemma hexToNat_pair (x : Nat) : hexToNat [x / 16, x % 16] = x := by
  simp [hexToNat, hexToNatAux]; omega

lemma hexToNat_quad (x y z w : Nat) :
    hexToNat [x/16, x%16, y/16, y%16, z/16, z%16, w/16, w%16]
      = ((x * 256 + y) * 256 + z) * 256 + w := by
  simp [hexToNat, hexToNatAux]; omega

lemma sectionVal_shift (b0 b1 b2 b3 b4 b5 : Nat) (qs : List Nat) (x : Nat) :
    GM3.sectionVal (bytesToHex (b0::b1::b2::b3::b4::b5::qs)) (x + 12)
      = GM3.sectionVal (bytesToHex qs) x := rfl

lemma sectionVal_head (b0 b1 b2 b3 b4 b5 : Nat) (qs : List Nat) :
    GM3.sectionVal (bytesToHex (b0::b1::b2::b3::b4::b5::qs)) 0
      = readingValue (sectionSign [b0,b1,b2,b3,b4,b5]) (sectionDigits [b0,b1,b2,b3,b4,b5])
          (sectionExponent [b0,b1,b2,b3,b4,b5]) := by
  have h2 : pySlice (bytesToHex (b0::b1::b2::b3::b4::b5::qs)) 2 4 = [b1/16, b1%16] := rfl
  have h4 : pySlice (bytesToHex (b0::b1::b2::b3::b4::b5::qs)) 4 12
      = [b2/16, b2%16, b3/16, b3%16, b4/16, b4%16, b5/16, b5%16] := rfl
  show (if hexToNat (pySlice (bytesToHex (b0::b1::b2::b3::b4::b5::qs)) 2 4) &&& 8 ≠ 0
          then (-1 : ℚ) else 1)
      * (hexToNat (pySlice (bytesToHex (b0::b1::b2::b3::b4::b5::qs)) 4 12) : ℚ)
      * (10 : ℚ) ^ (-((hexToNat (pySlice (bytesToHex (b0::b1::b2::b3::b4::b5::qs)) 2 4) &&& 7 : Nat) : ℤ))
      = _
  rw [h2, h4, hexToNat_pair, hexToNat_quad]
  have hd : ((b2 * 256 + b3) * 256 + b4) * 256 + b5
      = sectionDigits [b0,b1,b2,b3,b4,b5] := by
    simp [sectionDigits]; omega
  rw [hd]
  unfold readingValue sectionSign sectionExponent
  by_cases h : b1 &&& 8 ≠ 0 <;> simp [h]

lemma gid_unfold (buf : List Nat) :
    GM3.get_instantenous_data buf
      = (List.range ((bytesToHex buf).length / 2 / 6)).map
          (fun m => GM3.sectionVal (bytesToHex buf) (m * 12)) := rfl

lemma gid_cons6 (b0 b1 b2 b3 b4 b5 : Nat) (rest : List Nat) :
    GM3.get_instantenous_data (b0::b1::b2::b3::b4::b5::rest)
      = GM3.sectionVal (bytesToHex (b0::b1::b2::b3::b4::b5::rest)) 0
          :: GM3.get_instantenous_data rest := by
  have hn : (bytesToHex (b0::b1::b2::b3::b4::b5::rest)).length / 2 / 6
      = rest.length / 6 + 1 := by
    rw [bytesToHex_length]; simp [List.length_cons]; omega
  have hn2 : (bytesToHex rest).length / 2 / 6 = rest.length / 6 := by
    rw [bytesToHex_length]; omega
  rw [gid_unfold, gid_unfold]
  rw [hn, hn2, List.range_succ_eq_map, List.map_cons, List.map_map]
  congr 1
  apply List.map_congr_left
  intro m _
  show GM3.sectionVal (bytesToHex (b0::b1::b2::b3::b4::b5::rest)) ((m + 1) * 12)
      = GM3.sectionVal (bytesToHex rest) (m * 12)
  rw [show (m + 1) * 12 = m * 12 + 12 by ring]
  exact sectionVal_shift b0 b1 b2 b3 b4 b5 rest (m * 12)

lemma sectionsOf_cons6 (b0 b1 b2 b3 b4 b5 : Nat) (rest : List Nat) :
    sectionsOf (b0::b1::b2::b3::b4::b5::rest)
      = [b0,b1,b2,b3,b4,b5] :: sectionsOf rest := by
  have hn : (b0::b1::b2::b3::b4::b5::rest).length / 6 = rest.length / 6 + 1 := by
    simp [List.length_cons]; omega
  unfold sectionsOf
  rw [hn, List.range_succ_eq_map, List.map_cons, List.map_map]
  congr 1

/-- The decoder equals the spec-side sectionwise decoding on every buffer
(including buffers whose length is not a multiple of 6, where both sides
silently ignore the trailing remainder bytes). -/
lemma gid_eq_sections (buf : List Nat) :
    GM3.get_instantenous_data buf
      = (sectionsOf buf).map
          (fun s => readingValue (sectionSign s) (sectionDigits s) (sectionExponent s)) := by
  have H : ∀ (n : Nat) (buf : List Nat), buf.length ≤ n →
      GM3.get_instantenous_data buf
        = (sectionsOf buf).map
            (fun s => readingValue (sectionSign s) (sectionDigits s) (sectionExponent s)) := by
    intro n
    induction n with
    | zero =>
      intro buf h
      have : buf = [] := List.length_eq_zero.mp (Nat.le_zero.mp h)
      subst this; rfl
    | succ n ih =>
      intro buf h
      match buf with
      | [] => rfl
      | [a] => norm_num [gid_unfold, sectionsOf, bytesToHex]
      | [a, b] => norm_num [gid_unfold, sectionsOf, bytesToHex]
      | [a, b, c] => norm_num [gid_unfold, sectionsOf, bytesToHex]
      | [a, b, c, d] => norm_num [gid_unfold, sectionsOf, bytesToHex]
      | [a, b, c, d, e] => norm_num [gid_unfold, sectionsOf, bytesToHex]
      | b0 :: b1 :: b2 :: b3 :: b4 :: b5 :: rest =>
        rw [gid_cons6, sectionsOf_cons6, List.map_cons]
        congr 1
        · exact sectionVal_head b0 b1 b2 b3 b4 b5 rest
        · exact ih rest (by simp [List.length_cons] at h; omega)
  exact H buf.length buf (Nat.le_refl _)

lemma gid_length (buf : List Nat) :
    (GM3.get_instantenous_data buf).length = buf.length / 6 := by
  unfold GM3.get_instantenous_data
  rw [List.length_map, List.length_range, bytesToHex_length]
  omega

/-! ### Channel lemmas -/

lemma ackLoop_step_ok (frame : List Nat) (rl : Nat) (d rest : List Nat)
    (w : List (List Nat)) (c : Nat) (hd : d.length = rl) :
    GM3.ackLoop frame rl ⟨d ++ 8 :: rest, w, c⟩ = some (d, ⟨rest, w ++ [frame], c⟩) := by
  rw [GM3.ackLoop]
  subst hd
  simp [List.take_left, List.drop_left]

lemma ackLoop_step_fail (frame : List Nat) (rl : Nat) (d : List Nat) (a : Nat)
    (rest : List Nat) (w : List (List Nat)) (c : Nat) (hd : d.length = rl) (ha : a ≠ 8) :
    GM3.ackLoop frame rl ⟨d ++ a :: rest, w, c⟩
      = GM3.ackLoop frame rl ⟨rest, w ++ [frame], c + 1⟩ := by
  rw [GM3.ackLoop]
  subst hd
  simp [List.take_left, List.drop_left, ha]

lemma ackLoop_spec (frame : List Nat) (rl : Nat) (fails : List (List Nat × Nat))
    (d rest : List Nat) (w : List (List Nat)) (c : Nat)
    (hf : ∀ p ∈ fails, (p : List Nat × Nat).1.length = rl ∧ p.2 ≠ 8)
    (hd : d.length = rl) :
    GM3.ackLoop frame rl ⟨flatResp fails ++ d ++ 8 :: rest, w, c⟩
      = some (d, ⟨rest, w ++ List.replicate (fails.length + 1) frame, c + fails.length⟩) := by
  induction fails generalizing w c with
  | nil =>
    simp only [flatResp, List.foldr_nil, List.nil_append, List.length_nil]
    rw [ackLoop_step_ok frame rl d rest w c hd]
    simp
  | cons p ps ih =>
    have hp := hf p (by simp)
    have hps : ∀ q ∈ ps, (q : List Nat × Nat).1.length = rl ∧ q.2 ≠ 8 :=
      fun q hq => hf q (by simp [hq])
    have hflat : flatResp (p :: ps) ++ d ++ 8 :: rest
        = p.1 ++ p.2 :: (flatResp ps ++ d ++ 8 :: rest) := by
      simp [flatResp, List.append_assoc]
    rw [hflat, ackLoop_step_fail frame rl p.1 p.2 _ w c hp.1 hp.2,
      ih (w ++ [frame]) (c + 1) hps]
    simp [List.append_assoc, List.replicate_succ]
    omega

lemma contLoop_done (rl : Nat) (r : List Nat) (st : GMState) :
    GM3.contLoop rl r [7] st = some (r, st) := by
  rw [GM3.contLoop]
  simp

lemma contLoop_step (rl : Nat) (r a : List Nat) (d2 : List Nat) (a2 : Nat)
    (rest : List Nat) (w : List (List Nat)) (c : Nat) (ha : a ≠ [7]) (hd : d2.length = rl) :
    GM3.contLoop rl r a ⟨d2 ++ a2 :: rest, w, c⟩
      = GM3.contLoop rl (r ++ d2) [a2] ⟨rest, w ++ [List.replicate 6 8], c⟩ := by
  rw [GM3.contLoop]
  subst hd
  simp [ha, List.take_left, List.drop_left]

lemma contLoop_spec (rl : Nat) (conts : List (List Nat × Nat)) (e rest : List Nat)
    (r a : List Nat) (w : List (List Nat)) (c : Nat)
    (hc : ∀ p ∈ conts, (p : List Nat × Nat).1.length = rl ∧ p.2 ≠ 7)
    (he : e.length = rl) (ha : a ≠ [7]) :
    GM3.contLoop rl r a ⟨flatResp conts ++ e ++ 7 :: rest, w, c⟩
      = some (r ++ concatData conts ++ e,
          ⟨rest, w ++ List.replicate (conts.length + 1) (List.replicate 6 8), c⟩) := by
  induction conts generalizing r a w with
  | nil =>
    simp only [flatResp, List.foldr_nil, List.nil_append, List.length_nil]
    rw [contLoop_step rl r a e 7 rest w c ha he, contLoop_done]
    simp [concatData]
  | cons p ps ih =>
    have hp := hc p (by simp)
    have hps : ∀ q ∈ ps, (q : List Nat × Nat).1.length = rl ∧ q.2 ≠ 7 :=
      fun q hq => hc q (by simp [hq])
    have hflat : flatResp (p :: ps) ++ e ++ 7 :: rest
        = p.1 ++ p.2 :: (flatResp ps ++ e ++ 7 :: rest) := by
      simp [flatResp, List.append_assoc]
    have ha2 : [p.2] ≠ [7] := by simp [hp.2]
    rw [hflat, contLoop_step rl r a p.1 p.2 _ w c ha hp.1,
      ih (r ++ p.1) [p.2] (w ++ [List.replicate 6 8]) hps ha2]
    simp [concatData, List.append_assoc, List.replicate_succ]

lemma query_spec_single (cmd q : String) (rl : Nat) (fails : List (List Nat × Nat))
    (d rest : List Nat) (w : List (List Nat)) (c : Nat)
    (hq : List.lookup cmd qry_dict = some q)
    (hrl : List.lookup q read_length_dict = some rl)
    (h34 : q = ("03") ∨ q = ("04"))
    (hf : ∀ p ∈ fails, (p : List Nat × Nat).1.length = rl ∧ p.2 ≠ 8)
    (hd : d.length = rl) :
    GM3.query cmd ⟨flatResp fails ++ d ++ 8 :: rest, w, c⟩
      = QueryOutcome.ok d
          ⟨rest, w ++ List.replicate (fails.length + 1) (List.replicate 6 (opcodeByte q)),
           c + fails.length⟩ := by
  unfold GM3.query
  rw [hq]
  dsimp only
  rw [hrl]
  dsimp only
  rw [ackLoop_spec _ _ fails d rest w c hf hd]
  simp [h34]

lemma query_spec_multi (cmd q : String) (rl : Nat) (fails conts : List (List Nat × Nat))
    (d e rest : List Nat) (w : List (List Nat)) (c : Nat)
    (hq : List.lookup cmd qry_dict = some q)
    (hrl : List.lookup q read_length_dict = some rl)
    (h12 : q = ("01") ∨ q = ("02"))
    (hf : ∀ p ∈ fails, (p : List Nat × Nat).1.length = rl ∧ p.2 ≠ 8)
    (hd : d.length = rl)
    (hc : ∀ p ∈ conts, (p : List Nat × Nat).1.length = rl ∧ p.2 ≠ 7)
    (he : e.length = rl) :
    GM3.query cmd ⟨flatResp fails ++ d ++ 8 :: (flatResp conts ++ e ++ 7 :: rest), w, c⟩
      = QueryOutcome.ok (d ++ concatData conts ++ e)
          ⟨rest, w ++ List.replicate (fails.length + 1) (List.replicate 6 (opcodeByte q))
                   ++ List.replicate (conts.length + 1) (List.replicate 6 8),
           c + fails.length⟩ := by
  have h34 : ¬(q = ("03") ∨ q = ("04")) := by
    rcases h12 with rfl | rfl <;> decide
  unfold GM3.query
  rw [hq]
  dsimp only
  rw [hrl]
  dsimp only
  rw [ackLoop_spec _ _ fails d _ w c hf hd]
  dsimp only
  rw [if_neg h34, contLoop_spec rl conts e rest d [8] _ _ hc he (by decide)]

lemma ackLoop_error_le (frame : List Nat) (rl : Nat) :
    ∀ (n : Nat) (st : GMState), st.stream.length ≤ n →
      ∀ r st2, GM3.ackLoop frame rl st = some (r, st2) →
        st.error_count ≤ st2.error_count := by
  intro n
  induction n with
  | zero =>
    intro st h r st2 he
    have hnil : st.stream = [] := List.length_eq_zero.mp (Nat.le_zero.mp h)
    rw [GM3.ackLoop] at he
    simp [hnil] at he
  | succ n ih =>
    intro st h r st2 he
    rw [GM3.ackLoop] at he
    by_cases hs : st.stream = []
    · simp [hs] at he
    · rw [dif_neg hs] at he
      by_cases hack : (st.stream.drop rl).take 1 = [8]
      · simp only [hack, if_pos] at he
        simp only [Option.some.injEq, Prod.mk.injEq] at he
        rw [← he.2]
      · rw [if_neg hack] at he
        have hlen : ((st.stream.drop rl).drop 1).length ≤ n := by
          simp only [List.length_drop]
          have := List.length_pos.mpr hs
          omega
        have := ih ⟨(st.stream.drop rl).drop 1, st.writes ++ [frame], st.error_count + 1⟩
          hlen r st2 he
        simp only at this
        omega

lemma contLoop_error_eq (rl : Nat) :
    ∀ (n : Nat) (r a : List Nat) (st : GMState), st.stream.length ≤ n →
      ∀ r2 st2, GM3.contLoop rl r a st = some (r2, st2) →
        st2.error_count = st.error_count := by
  intro n
  induction n with
  | zero =>
    intro r a st h r2 st2 he
    have hnil : st.stream = [] := List.length_eq_zero.mp (Nat.le_zero.mp h)
    rw [GM3.contLoop] at he
    by_cases hdone : a = [7]
    · simp only [hdone, if_pos] at he
      simp only [Option.some.injEq, Prod.mk.injEq] at he
      rw [← he.2]
    · simp [hdone, hnil] at he
  | succ n ih =>
    intro r a st h r2 st2 he
    rw [GM3.contLoop] at he
    by_cases hdone : a = [7]
    · simp only [hdone, if_pos] at he
      simp only [Option.some.injEq, Prod.mk.injEq] at he
      rw [← he.2]
    · rw [if_neg hdone] at he
      by_cases hs : st.stream = []
      · simp [hs] at he
      · rw [dif_neg hs] at he
        have hlen : ((st.stream.drop rl).drop 1).length ≤ n := by
          simp only [List.length_drop]
          have := List.length_pos.mpr hs
          omega
        have := ih (r ++ st.stream.take rl) ((st.stream.drop rl).take 1)
          ⟨(st.stream.drop rl).drop 1, st.writes ++ [List.replicate 6 8], st.error_count⟩
          hlen r2 st2 he
        simpa using this

lemma query_error_le (cmd : String) (st : GMState) (r : List Nat) (st2 : GMState)
    (h : GM3.query cmd st = QueryOutcome.ok r st2) :
    st.error_count ≤ st2.error_count := by
  unfold GM3.query at h
  cases hq : List.lookup cmd qry_dict with
  | none => rw [hq] at h; simp at h
  | some qry =>
    rw [hq] at h
    dsimp only at h
    cases hrl : List.lookup qry read_length_dict with
    | none => rw [hrl] at h; simp at h
    | some rl =>
      rw [hrl] at h
      dsimp only at h
      cases hal : GM3.ackLoop (List.replicate 6 (opcodeByte qry)) rl st with
      | none => rw [hal] at h; simp at h
      | some p =>
        rw [hal] at h
        dsimp only at h
        have h1 : st.error_count ≤ p.2.error_count :=
          ackLoop_error_le _ rl st.stream.length st (Nat.le_refl _) p.1 p.2 (by rw [hal])
        by_cases h34 : qry = ("03") ∨ qry = ("04")
        · rw [if_pos h34] at h
          simp only [QueryOutcome.ok.injEq] at h
          rw [← h.2]
          exact h1
        · rw [if_neg h34] at h
          cases hcl : GM3.contLoop rl p.1 [8] p.2 with
          | none => rw [hcl] at h; simp at h
          | some p2 =>
            rw [hcl] at h
            dsimp only at h
            simp only [QueryOutcome.ok.injEq] at h
            have h2 : p2.2.error_count = p.2.error_count :=
              contLoop_error_eq rl p.2.stream.length p.1 [8] p.2 (Nat.le_refl _) p2.1 p2.2 hcl
            rw [← h.2, h2]
            exact h1

/-! ### Section round-trip lemmas -/

lemma section_byte_2_eval (b0 b1 b2 b3 b4 b5 : Nat) :
    hexToNat (pySlice (bytesToHex [b0,b1,b2,b3,b4,b5]) 2 4) = b1 := by
  have h : pySlice (bytesToHex [b0,b1,b2,b3,b4,b5]) 2 4 = [b1/16, b1%16] := rfl
  rw [h, hexToNat_pair]

lemma section_digits_eval (b0 b1 b2 b3 b4 b5 : Nat) :
    GM3.section_digits [b0,b1,b2,b3,b4,b5] = ((b2 * 256 + b3) * 256 + b4) * 256 + b5 := by
  have h : pySlice (bytesToHex [b0,b1,b2,b3,b4,b5]) 4 12
      = [b2/16, b2%16, b3/16, b3%16, b4/16, b4%16, b5/16, b5%16] := rfl
  unfold GM3.section_digits
  rw [h, hexToNat_quad]

/-! ## Claims -/

/-- C1: for every input buffer whose length is a multiple of 6, the decoder
partitions it into consecutive 6-byte sections and, for each section, returns
sign * digits * 10^(-exponent), where the sign is -1 iff bit 4 (mask 0x08) of
the section's byte 2 is set, the exponent is the low three bits (mask 0x07)
of byte 2, and the digits are the big-endian 32-bit unsigned integer of bytes
3-6; in particular the section 00 08 00 00 27 10 decodes to -10000. -/
theorem get_instantenous_data_sections_spec :
    (∀ (buf : List Nat) (k : Nat), buf.length = 6 * k →
        GM3.get_instantenous_data buf
          = (sectionsOf buf).map
              (fun s => readingValue (sectionSign s) (sectionDigits s) (sectionExponent s)))
    ∧ GM3.get_instantenous_data [0x00, 0x08, 0x00, 0x00, 0x27, 0x10] = [-10000] := by
  constructor
  · intro buf k _
    exact gid_eq_sections buf
  · norm_num [GM3.get_instantenous_data, GM3.sectionVal, hexToNat, hexToNatAux, pySlice,
      bytesToHex, List.range_succ, show (8 &&& 7 : Nat) = 0 by decide,
      show (8 &&& 8 : Nat) = 8 by decide]

theorem get_instantenous_data_sections_spec_witness :
    GM3.get_instantenous_data [0, 8, 0, 0, 39, 16]
      = (sectionsOf [0, 8, 0, 0, 39, 16]).map
          (fun s => readingValue (sectionSign s) (sectionDigits s) (sectionExponent s)) :=
  get_instantenous_data_sections_spec.1 [0, 8, 0, 0, 39, 16] 1 (by decide)

/-- C4 counterexample: on the 7-byte buffer 00 08 00 00 27 10 55, whose
length is not a multiple of 6, the decoder does not reject the buffer: it
returns the reading of the first section and silently ignores the trailing
byte. -/
theorem decode_remainder_counterexample :
    ([0, 8, 0, 0, 39, 16, 85] : List Nat).length % 6 ≠ 0
    ∧ GM3.get_instantenous_data [0, 8, 0, 0, 39, 16, 85] = [-10000] := by
  constructor
  · decide
  · norm_num [GM3.get_instantenous_data, GM3.sectionVal, hexToNat, hexToNatAux, pySlice,
      bytesToHex, List.range_succ, show (8 &&& 7 : Nat) = 0 by decide,
      show (8 &&& 8 : Nat) = 8 by decide]

/-- C4 (amended): for every input buffer whose length is not a multiple of 6,
the decoder raises no error: it decodes the first `len / 6` complete 6-byte
sections and silently ignores the remainder bytes. -/
theorem decode_remainder_truncates :
    ∀ buf : List Nat, buf.length % 6 ≠ 0 →
      GM3.get_instantenous_data buf
        = (sectionsOf buf).map
            (fun s => readingValue (sectionSign s) (sectionDigits s) (sectionExponent s))
      ∧ (GM3.get_instantenous_data buf).length = buf.length / 6 := by
  intro buf _
  exact ⟨gid_eq_sections buf, gid_length buf⟩

theorem decode_remainder_truncates_witness :
    GM3.get_instantenous_data [1, 9, 0, 0, 0, 2, 7]
      = (sectionsOf [1, 9, 0, 0, 0, 2, 7]).map
          (fun s => readingValue (sectionSign s) (sectionDigits s) (sectionExponent s))
    ∧ (GM3.get_instantenous_data [1, 9, 0, 0, 0, 2, 7]).length
        = ([1, 9, 0, 0, 0, 2, 7] : List Nat).length / 6 :=
  decode_remainder_truncates [1, 9, 0, 0, 0, 2, 7] (by decide)

/-- C8 counterexample: the 6-byte section 01 00 00 00 00 00 decodes to sign
+1, exponent 0, digits 0, and re-encoding those reproduces 00 00 00 00 00 00,
not the original section: the decoder ignores byte 1 (and the high bits of
byte 2), so re-encoding does not reproduce every 6-byte section. -/
theorem reencode_section_counterexample :
    encodeSection (GM3.section_sign [1,0,0,0,0,0]) (GM3.section_digits [1,0,0,0,0,0])
        (GM3.section_exponent [1,0,0,0,0,0])
      ≠ [1,0,0,0,0,0] := by decide

/-- C8 (amended): for every 6-byte section of byte values whose byte 1 is 0
and whose byte 2 is below 0x10 (the bits the decoder actually reads),
re-encoding the sign, exponent, and digits recovered by the decoder (sign bit
into bit 4 of byte 2, exponent into the low three bits of byte 2, digits as
big-endian bytes 3-6) reproduces the original 6 section bytes exactly. -/
theorem reencode_section_roundtrip :
    ∀ b0 b1 b2 b3 b4 b5 : Nat,
      b0 = 0 → b1 < 16 → b2 < 256 → b3 < 256 → b4 < 256 → b5 < 256 →
      encodeSection (GM3.section_sign [b0,b1,b2,b3,b4,b5])
          (GM3.section_digits [b0,b1,b2,b3,b4,b5])
          (GM3.section_exponent [b0,b1,b2,b3,b4,b5])
        = [b0,b1,b2,b3,b4,b5] := by
  intro b0 b1 b2 b3 b4 b5 h0 h1 h2 h3 h4 h5
  subst h0
  unfold GM3.section_sign GM3.section_exponent encodeSection
  rw [section_byte_2_eval, section_digits_eval]
  simp only [List.cons.injEq]
  refine ⟨trivial, ?_, ?_, ?_, ?_, ?_, trivial⟩
  · interval_cases b1 <;> decide
  · omega
  · omega
  · omega
  · omega

theorem reencode_section_roundtrip_witness :
    encodeSection (GM3.section_sign [0, 9, 0, 0, 39, 16]) (GM3.section_digits [0, 9, 0, 0, 39, 16])
        (GM3.section_exponent [0, 9, 0, 0, 39, 16])
      = [0, 9, 0, 0, 39, 16] :=
  reencode_section_roundtrip 0 9 0 0 39 16 rfl (by decide) (by decide) (by decide)
    (by decide) (by decide)

/-- C2 counterexample: for opcode '01' (a multi-frame opcode in the channel's
table) and a transport that acknowledges the first attempt with 0x08 and then
completes one continuation frame with 0x07, the query returns the payload of
the successful attempt concatenated with the continuation payload — not the
payload read on the successful attempt. -/
theorem query_payload_claim_counterexample :
    GM3.query ("01")
        ⟨List.replicate 20 0 ++ 8 :: (List.replicate 20 1 ++ 7 :: []), [], 0⟩
      = QueryOutcome.ok (List.replicate 20 0 ++ List.replicate 20 1)
          ⟨[], [List.replicate 6 1, List.replicate 6 8], 0⟩
    ∧ List.replicate 20 0 ++ List.replicate 20 1 ≠ List.replicate 20 0 := by
  constructor
  · exact query_spec_multi ("01") ("01") 20 [] [] (List.replicate 20 0)
      (List.replicate 20 1) [] [] 0 rfl rfl (Or.inl rfl) (by simp) (by simp) (by simp) (by simp)
  · decide

/-- C2 (amended): for every opcode in the channel's table and every transport
that answers the first N query attempts with an acknowledgment byte different
from 0x08 and then acknowledges with 0x08, the query retransmits the
identical request frame on each of the N+1 attempts and increments the
failed-attempt counter by exactly N; for the single-frame opcodes '03' and
'04' it returns the payload read on the successful attempt, while for the
multi-frame opcodes '01' and '02' it returns that payload concatenated with
the continuation payloads read up to the 0x07 completion acknowledgment. -/
theorem query_retry_payload_errors :
    ∀ (cmd q : String) (rl N : Nat) (fails : List (List Nat × Nat)) (d rest : List Nat)
      (w : List (List Nat)) (c : Nat),
      List.lookup cmd qry_dict = some q →
      List.lookup q read_length_dict = some rl →
      fails.length = N →
      (∀ p ∈ fails, (p : List Nat × Nat).1.length = rl ∧ p.2 ≠ 8) →
      d.length = rl →
      ((q = ("03") ∨ q = ("04")) →
        GM3.query cmd ⟨flatResp fails ++ d ++ 8 :: rest, w, c⟩
          = QueryOutcome.ok d
              ⟨rest, w ++ List.replicate (N + 1) (List.replicate 6 (opcodeByte q)), c + N⟩)
      ∧ ∀ (conts : List (List Nat × Nat)) (e rest2 : List Nat),
          (∀ p ∈ conts, (p : List Nat × Nat).1.length = rl ∧ p.2 ≠ 7) →
          e.length = rl →
          (q = ("01") ∨ q = ("02")) →
          GM3.query cmd ⟨flatResp fails ++ d ++ 8 :: (flatResp conts ++ e ++ 7 :: rest2), w, c⟩
            = QueryOutcome.ok (d ++ concatData conts ++ e)
                ⟨rest2, w ++ List.replicate (N + 1) (List.replicate 6 (opcodeByte q))
                     ++ List.replicate (conts.length + 1) (List.replicate 6 8), c + N⟩ := by
  intro cmd q rl N fails d rest w c hq hrl hN hf hd
  subst hN
  exact ⟨fun h34 => query_spec_single cmd q rl fails d rest w c hq hrl h34 hf hd,
    fun conts e rest2 hc he h12 =>
      query_spec_multi cmd q rl fails conts d e rest2 w c hq hrl h12 hf hd hc he⟩

theorem query_retry_payload_errors_witness :
    GM3.query ("STREAM_DATA")
        ⟨List.replicate 30 2 ++ 0 :: (List.replicate 30 5 ++ 8 :: []), [], 0⟩
      = QueryOutcome.ok (List.replicate 30 5)
          ⟨[], [List.replicate 6 3, List.replicate 6 3], 1⟩ :=
  (query_retry_payload_errors ("STREAM_DATA") ("03") 30 1 [(List.replicate 30 2, 0)]
      (List.replicate 30 5) [] [] 0 rfl rfl rfl (by simp) (by simp)).1 (Or.inl rfl)

/-- C3: for every accepted opcode, the channel transmits the request as the
single opcode byte repeated exactly 6 times, then reads exactly N data bytes
plus one acknowledgment byte, N taken from the fixed table
01 (identity): 20, 02 (settings): 20, 03 (stream): 30, 04 (reset): 31; for
the multi-frame opcodes 01 and 02 it then transmits the continuation byte
0x08 repeated 6 times and re-reads, concatenating data bytes, until the
acknowledgment byte equals the completion marker 0x07. -/
theorem query_frame_protocol :
    read_length_dict = [(("01"), 20), (("02"), 20), (("03"), 30), (("04"), 31)]
    ∧ ∀ (cmd q : String) (rl : Nat) (fails : List (List Nat × Nat)) (d rest : List Nat)
        (w : List (List Nat)) (c : Nat),
        List.lookup cmd qry_dict = some q →
        List.lookup q read_length_dict = some rl →
        (∀ p ∈ fails, (p : List Nat × Nat).1.length = rl ∧ p.2 ≠ 8) →
        d.length = rl →
        ((q = ("03") ∨ q = ("04")) →
          GM3.query cmd ⟨flatResp fails ++ d ++ 8 :: rest, w, c⟩
            = QueryOutcome.ok d
                ⟨rest, w ++ List.replicate (fails.length + 1) (List.replicate 6 (opcodeByte q)),
                 c + fails.length⟩)
        ∧ ∀ (conts : List (List Nat × Nat)) (e rest2 : List Nat),
            (∀ p ∈ conts, (p : List Nat × Nat).1.length = rl ∧ p.2 ≠ 7) →
            e.length = rl →
            (q = ("01") ∨ q = ("02")) →
            GM3.query cmd ⟨flatResp fails ++ d ++ 8 :: (flatResp conts ++ e ++ 7 :: rest2), w, c⟩
              = QueryOutcome.ok (d ++ concatData conts ++ e)
                  ⟨rest2, w ++ List.replicate (fails.length + 1) (List.replicate 6 (opcodeByte q))
                       ++ List.replicate (conts.length + 1) (List.replicate 6 8),
                   c + fails.length⟩ := by
  refine ⟨rfl, ?_⟩
  intro cmd q rl fails d rest w c hq hrl hf hd
  exact ⟨fun h34 => query_spec_single cmd q rl fails d rest w c hq hrl h34 hf hd,
    fun conts e rest2 hc he h12 =>
      query_spec_multi cmd q rl fails conts d e rest2 w c hq hrl h12 hf hd hc he⟩

theorem query_frame_protocol_witness :
    GM3.query ("ID_METER_PROP")
        ⟨List.replicate 20 11 ++ 8 :: (List.replicate 20 9 ++ 8 :: (List.replicate 20 4 ++ 7 :: [])),
         [], 0⟩
      = QueryOutcome.ok (List.replicate 20 11 ++ List.replicate 20 9 ++ List.replicate 20 4)
          ⟨[], [List.replicate 6 1, List.replicate 6 8, List.replicate 6 8], 0⟩ :=
  (query_frame_protocol.2 ("ID_METER_PROP") ("01") 20 [] (List.replicate 20 11) [] [] 0
      rfl rfl (by simp) (by simp)).2 [(List.replicate 20 9, 8)] (List.replicate 20 4) []
      (by simp) (by simp) (Or.inl rfl)

/-- C10: the channel's failed-acknowledgment counter (the module-level global
`error_count`, threaded through `GMState` and shared by every query in the
process) is only ever incremented by `GM3.query` and never reset, so its
value is monotonically non-decreasing over any sequence of queries. -/
theorem error_count_monotone :
    ∀ (cmds : List String) (st : GMState),
      st.error_count ≤ (runQueries cmds st).error_count := by
  intro cmds
  induction cmds with
  | nil => intro st; exact Nat.le_refl _
  | cons cHead cs ih =>
    intro st
    simp only [runQueries, List.foldl_cons]
    cases hq : GM3.query cHead st with
    | ok r st2 =>
      simp only [hq]
      exact Nat.le_trans (query_error_le cHead st r st2 hq) (ih st2)
    | invalid =>
      simp only [hq]
      exact ih st
    | diverge =>
      simp only [hq]
      exact ih st

/-- C5: a write command whose argument fails numeric parsing makes
`process_command` raise `ValueError` (from `float(s)`), and the scheduler
loop of `main` — which catches only `BlockingIOError` around the receive —
lets that exception propagate: the iteration ends fatally and the network
session terminates, instead of the error being reported on the wire with
the connection staying open. -/
theorem process_command_parse_failure_fatal :
    process_command (("PS:VSET abc\r").data) asm0 = (CmdResult.exc PyExc.valueError, asm0)
    ∧ loop_iter updOk (some (("PS:VSET abc\r").data)) 0 ⟨asm0, 0, []⟩
        = LoopOutcome.fatal (Sum.inl PyExc.valueError)
            ⟨{ asm0 with supply_set_voltage := 0 }, 0, []⟩ := by
  constructor
  · rfl
  · rfl

/-- C6: whenever the regulating flag is false (as after a `PD:REGT 0`
command, which sets it to 0), the control phase of every scheduler loop
iteration forces the actuator command (the supply set voltage) to zero,
regardless of the control step `upd` (so regardless of any controller
output). -/
theorem not_regulating_forces_zero_voltage :
    (∀ asm : Asm, (process_command (("PD:REGT 0\r").data) asm).2.pid_regulating = 0)
    ∧ ∀ (upd : Asm → Except DevErr Asm) (now : ℚ) (st : LoopState),
        st.asm.pid_regulating = 0 →
        control_phase upd now st
          = Except.ok { st with asm := { st.asm with supply_set_voltage := 0 } } := by
  constructor
  · intro asm
    rfl
  · intro upd now st h
    unfold control_phase
    rw [if_neg (by simp [h])]

theorem not_regulating_forces_zero_voltage_witness :
    (process_command (("PD:REGT 0\r").data) asm0).2.pid_regulating = 0
    ∧ control_phase updFail 3 ⟨asm0, 0, []⟩
        = Except.ok ⟨{ asm0 with supply_set_voltage := 0 }, 0, []⟩ :=
  ⟨not_regulating_forces_zero_voltage.1 asm0,
   not_regulating_forces_zero_voltage.2 updFail 3 ⟨asm0, 0, []⟩ rfl⟩

/-- C7 counterexample: with regulation enabled and the sample period elapsed,
a failing device call inside the control step makes the scheduler loop
iteration end fatally — the loop does not continue running. -/
theorem control_step_failure_fatal_counterexample :
    (loop_iter updFail none 1 ⟨asm1, 0, []⟩).isFatal = true := by
  have h1 : (⟨asm1, 0, []⟩ : LoopState).asm.pid_regulating ≠ 0 := by decide
  have h2 : (1 : ℚ) - (⟨asm1, 0, []⟩ : LoopState).t0
      ≥ (⟨asm1, 0, []⟩ : LoopState).asm.sample_time := by
    norm_num [asm1, asm0]
  unfold loop_iter control_phase
  rw [if_pos h1, if_pos h2]
  rfl

/-- C7 (amended): a failed device call inside the control step is not caught
anywhere in the scheduler loop: the failure propagates out of the iteration
as a fatal outcome (ending the session and the process), rather than being
logged, skipped for that tick, and regulation resuming on the next tick. -/
theorem control_step_failure_propagates :
    ∀ (upd : Asm → Except DevErr Asm) (inbound : Option (List Char)) (now : ℚ)
      (st : LoopState) (e : DevErr),
      st.asm.pid_regulating ≠ 0 →
      now - st.t0 ≥ st.asm.sample_time →
      upd st.asm = Except.error e →
      loop_iter upd inbound now st = LoopOutcome.fatal (Sum.inr e) st := by
  intro upd inbound now st e h1 h2 h3
  unfold loop_iter control_phase
  rw [if_pos h1, if_pos h2, h3]

theorem control_step_failure_propagates_witness :
    loop_iter updFail none 1 ⟨{ asm0 with pid_regulating := 1, sample_time := 1 }, 0, []⟩
      = LoopOutcome.fatal (Sum.inr DevErr.deviceFailure)
          ⟨{ asm0 with pid_regulating := 1, sample_time := 1 }, 0, []⟩ :=
  control_step_failure_propagates updFail none 1
    ⟨{ asm0 with pid_regulating := 1, sample_time := 1 }, 0, []⟩ DevErr.deviceFailure
    (by decide) (by norm_num [asm0]) rfl

/-- C9: for every carriage-return-terminated command line consisting of a
single token that names a read/write field requiring an argument, the
dispatcher does not return a value or an error string: the line splits into
one token, so the argument variable `s` is never assigned, and reading it in
the handler raises `UnboundLocalError`, leaving the assembly unchanged. -/
theorem missing_argument_unbound_local :
    ∀ (t : List Char) (asm : Asm), t ∈ argFields →
      process_command (t ++ ['\r']) asm = (CmdResult.exc PyExc.unboundLocal, asm) := by
  intro t asm ht
  fin_cases ht <;> rfl

theorem missing_argument_unbound_local_witness :
    process_command (("PS:VSET").data ++ ['\r']) asm0
      = (CmdResult.exc PyExc.unboundLocal, asm0) :=
  missing_argument_unbound_local (("PS:VSET").data) asm0 (by decide)
